import Mathlib

/-
Verification of the page controller in src/workflow/main.js.

The script wires DOM events to HTTP calls. We embed each handler as a pure
function: the network is an oracle argument of type Except String Json (an
error value models a rejected fetch or a response whose json() call rejects,
collapsing the two await points that can throw inside one try block), the DOM
is explicit state, and browser navigation and console logs are returned as
data. JavaScript semantics that the handlers rely on (String.prototype.split,
trim, truthiness, string coercion of undefined, the textContent setter, the
querySelector id-selector grammar) are modelled explicitly below, each with a
comment citing the behaviour being embedded.
-/

/-- A parsed JSON value as the handlers consume it. The script only reads
string and number fields out of objects, so those constructors suffice. -/
inductive Json where
  | str : String → Json
  | num : Int → Json
  | obj : List (String × Json) → Json

/-- Property access stats.field on a parsed JSON value: a lookup in an
object, undefined (none) when the field is absent or the value is not an
object (property access on a primitive yields undefined, it does not throw). -/
def jsonField : Json → String → Option Json
  | .obj fields, key => (fields.find? (fun p => p.1 == key)).map Prod.snd
  | _, _ => none

/-- JavaScript strict equality of a possibly-undefined field against a string
literal, as in data.status === "success": true only when the field is present
and is exactly that string. -/
def strictEqStr : Option Json → String → Bool
  | some (.str s), t => s == t
  | _, _ => false

/-- JavaScript string conversion of a field value under string concatenation
with +, as in "/add-leads?campaign=" + data.campaign_id: undefined prints as
"undefined", a string is taken verbatim, a number prints in decimal. -/
def jsPlusVal : Option Json → String
  | none => "undefined"
  | some (.str s) => s
  | some (.num n) => toString n
  | some (.obj _) => "[object Object]"

/-- The textContent setter applied to a field value. textContent has IDL type
nullable DOMString with LegacyNullToEmptyString, so undefined converts to null
and null writes the empty string; a number is converted to its decimal string. -/
def setTextContent : Option Json → String
  | none => ""
  | some (.str s) => s
  | some (.num n) => toString n
  | some (.obj _) => "[object Object]"

/-- JavaScript String.prototype.split with a single-character separator, over
the character list: the empty string splits to a one-element list holding the
empty string, and every separator occurrence opens a new (possibly empty)
field. -/
def splitChar (c : Char) : List Char → List (List Char)
  | [] => [[]]
  | x :: xs =>
    if x = c then [] :: splitChar c xs
    else
      match splitChar c xs with
      | [] => [[x]]
      | r :: rs => (x :: r) :: rs

/-- String.prototype.split for a one-character separator, on strings. -/
def jsSplit (sep : Char) (s : String) : List String :=
  (splitChar sep s.data).map String.mk

/-- The whitespace class trimmed by String.prototype.trim, restricted to the
ASCII whitespace characters (all inputs in this development are ASCII). -/
def jsWhitespaceChar (c : Char) : Bool :=
  c == ' ' || c == '\t' || c == '\n' || c == '\r' || c == '\x0b' || c == '\x0c'

/-- String.prototype.trim on the character list: drop leading and trailing
whitespace. -/
def trimChars (l : List Char) : List Char :=
  ((l.dropWhile jsWhitespaceChar).reverse.dropWhile jsWhitespaceChar).reverse

/-- String.prototype.trim. -/
def jsTrim (s : String) : String := String.mk (trimChars s.data)

/-- One parsed lead as built on line 85 of main.js: name and phone may each
be undefined, because the optional-chained trim propagates undefined when the
comma split produced fewer than two tokens. -/
structure JsLead where
  name : Option String
  phone : Option String
deriving DecidableEq, Repr

/-- The per-line step of lines 84 to 86 of main.js: destructure the comma
split into its first two tokens (undefined past the end of the list) and
apply the optional-chained trim to each. -/
def parseLine (line : String) : JsLead :=
  let toks := jsSplit ',' line
  { name := (toks.get? 0).map jsTrim, phone := (toks.get? 1).map jsTrim }

/-- JavaScript truthiness of a possibly-undefined string: undefined and the
empty string are falsy, every other string is truthy. -/
def truthy : Option String → Bool
  | none => false
  | some s => s != ""

/-- The filter predicate lead.name && lead.phone on line 87 of main.js. -/
def leadKept (lead : JsLead) : Bool :=
  truthy lead.name && truthy lead.phone

/-- The whole parsing pipeline of lines 84 to 87 of main.js: split the text
area value on newlines, map the comma split and trim over the lines, keep the
pairs whose two fields are both truthy. -/
def parseLeads (leadsText : String) : List JsLead :=
  ((jsSplit '\n' leadsText).map parseLine).filter leadKept

/-- The keep condition of claim C1, stated on a single line the way the spec
words it: both of the first two comma-split tokens exist and are non-empty
after trimming. -/
def bothTokensNonempty (line : String) : Bool :=
  match (jsSplit ',' line).get? 0, (jsSplit ',' line).get? 1 with
  | some a, some b => jsTrim a != "" && jsTrim b != ""
  | _, _ => false

/-- The four dashboard text nodes written by fetchDashboardStats. -/
structure Dom where
  totalCalls : String
  hotLeads : String
  bookedCalls : String
  conversionRate : String
deriving DecidableEq, Repr

/-- fetchDashboardStats, lines 30 to 42 of main.js. The oracle is the result
of awaiting fetch and response.json(); an error value is caught by the
handler and logged. On a parsed body the four assignments run
unconditionally, writing whatever the field accesses produce. The function is
total: no exception escapes the handler, every input yields a final DOM and
log. -/
def fetchDashboardStats (res : Except String Json) (dom : Dom) :
    Dom × List String :=
  match res with
  | .error e => (dom, ["Error fetching stats: " ++ e])
  | .ok stats =>
    ({ totalCalls := setTextContent (jsonField stats "total_calls"),
       hotLeads := setTextContent (jsonField stats "hot_leads"),
       bookedCalls := setTextContent (jsonField stats "booked_calls"),
       conversionRate := setTextContent (jsonField stats "conversion_rate") },
     [])

/-- The campaign-form submit handler, lines 48 to 71 of main.js, from the
point where the create response is awaited: returns the navigation target (if
any) and the console log. Navigation happens only when data.status is
strictly the string "success", and the target appends data.campaign_id under
JavaScript string coercion. -/
def campaignFormSubmit (res : Except String Json) :
    Option String × List String :=
  match res with
  | .error e => (none, ["Error creating campaign: " ++ e])
  | .ok data =>
    if strictEqStr (jsonField data "status") "success" then
      (some ("/add-leads?campaign=" ++ jsPlusVal (jsonField data "campaign_id")),
       [])
    else (none, [])

/-- The template literal of line 108 of main.js: a null campaignId (absent
query parameter) interpolates as the text "null". -/
def launchUrl : Option String → String
  | none => "/api/campaign/" ++ "null" ++ "/launch"
  | some s => "/api/campaign/" ++ s ++ "/launch"

/-- launchCampaign, lines 106 to 118 of main.js: returns the URL its POST is
sent to, the navigation target and the console log. Redirects to /dashboard
only when the launch response status is strictly "started"; a rejected fetch
or json() is caught and logged; any other status does nothing at all. -/
def launchCampaign (campaignId : Option String)
    (res : Except String Json) : String × Option String × List String :=
  (launchUrl campaignId,
   match res with
   | .error e => (none, ["Error launching campaign: " ++ e])
   | .ok data =>
     if strictEqStr (jsonField data "status") "started" then
       (some "/dashboard", [])
     else (none, []))

/-- The body of the JSON.stringify call on line 94 of main.js: campaignId
comes verbatim from the query string (none models null, serialized as JSON
null) together with the parsed leads array. -/
structure UploadRequest where
  campaignId : Option String
  leads : List JsLead
deriving DecidableEq, Repr

/-- Everything observable the leads-form submit handler does: the upload
request body it always sends, the launch URL it POSTs to when it proceeds,
the final navigation, and the console log. -/
structure LeadsOutcome where
  upload : UploadRequest
  launchRequested : Option String
  nav : Option String
  logs : List String
deriving DecidableEq, Repr

/-- The leads-form submit handler, lines 76 to 103 of main.js. campaignId is
the value of urlParams.get on the campaign key (none models null). The
upload POST is issued unconditionally with the parsed leads; when its
response status is strictly "success" the handler awaits launchCampaign,
whose POST target URL is recorded in launchRequested; launchCampaign catches
its own errors, so the outer catch only sees the upload oracle. -/
def leadsFormSubmit (campaignId : Option String) (leadsText : String)
    (uploadRes launchRes : Except String Json) : LeadsOutcome :=
  let leads := parseLeads leadsText
  match uploadRes with
  | .error e =>
    { upload := ⟨campaignId, leads⟩, launchRequested := none, nav := none,
      logs := ["Error uploading leads: " ++ e] }
  | .ok data =>
    if strictEqStr (jsonField data "status") "success" then
      let r := launchCampaign campaignId launchRes
      { upload := ⟨campaignId, leads⟩,
        launchRequested := some r.1,
        nav := r.2.1, logs := r.2.2 }
    else
      { upload := ⟨campaignId, leads⟩, launchRequested := none, nav := none,
        logs := [] }

/-- Splitting a list that does not contain the separator yields that list as
the single field. -/
theorem splitChar_no_sep (c : Char) (l : List Char) (h : c ∉ l) :
    splitChar c l = [l] := by
  induction l with
  | nil => rfl
  | cons x xs ih =>
    have hx : ¬ x = c := fun hxc => h (hxc ▸ List.mem_cons_self x xs)
    have hxs : c ∉ xs := fun hm => h (List.mem_cons_of_mem _ hm)
    simp [splitChar, hx, ih hxs]

/-- Splitting at the first separator occurrence: the part before it becomes
the first field and the rest is split recursively. -/
theorem splitChar_append (c : Char) (l1 l2 : List Char) (h : c ∉ l1) :
    splitChar c (l1 ++ c :: l2) = l1 :: splitChar c l2 := by
  induction l1 with
  | nil => simp [splitChar]
  | cons x xs ih =>
    have hx : ¬ x = c := fun hxc => h (hxc ▸ List.mem_cons_self x xs)
    have hxs : c ∉ xs := fun hm => h (List.mem_cons_of_mem _ hm)
    simp [splitChar, hx, ih hxs]

/-- The character list of an appended string is the appended character lists. -/
theorem string_data_append (a b : String) : (a ++ b).data = a.data ++ b.data :=
  rfl

/-- Rebuilding a string from its own character list is the identity. -/
theorem string_mk_data (s : String) : String.mk s.data = s := rfl

/-- The character list of the one-character comma string. -/
theorem comma_data : ("," : String).data = [','] := rfl

/-- The filter predicate of line 87, composed with the per-line parser,
coincides with the keep condition as the spec words it: both of the first two
comma-split tokens are non-empty after trimming. -/
theorem leadKept_parseLine (line : String) :
    leadKept (parseLine line) = bothTokensNonempty line := by
  simp only [leadKept, parseLine, bothTokensNonempty]
  cases h0 : (jsSplit ',' line).get? 0 <;> cases h1 : (jsSplit ',' line).get? 1 <;>
    simp [truthy, h0, h1]

/-- The parsing pipeline equals: keep exactly the lines satisfying the keep
condition, in their original order, and parse each kept line. -/
theorem parseLeads_eq_filter (t : String) :
    parseLeads t = ((jsSplit '\n' t).filter bothTokensNonempty).map parseLine := by
  unfold parseLeads
  rw [List.filter_map]
  have h : (leadKept ∘ parseLine) = bothTokensNonempty := funext leadKept_parseLine
  rw [h]

/-- The lead list never has more entries than the input has lines. -/
theorem parseLeads_length_le (t : String) :
    (parseLeads t).length ≤ (jsSplit '\n' t).length := by
  have h1 := List.length_filter_le leadKept ((jsSplit '\n' t).map parseLine)
  simpa [parseLeads] using h1

/-- On a line built from two comma-free tokens, a comma, and arbitrary
trailing text after a second comma, the parser returns exactly the two
trimmed tokens: the trailing text is lost. -/
theorem parseLine_two_commas (a b rest : String)
    (ha : ',' ∉ a.data) (hb : ',' ∉ b.data) :
    parseLine (a ++ "," ++ b ++ "," ++ rest) = ⟨some (jsTrim a), some (jsTrim b)⟩ := by
  have hdata : (a ++ "," ++ b ++ "," ++ rest).data
      = a.data ++ ',' :: (b.data ++ ',' :: rest.data) := by
    simp [string_data_append, comma_data]
  simp [parseLine, jsSplit, hdata, splitChar_append _ _ _ ha, splitChar_append _ _ _ hb,
    string_mk_data, jsTrim]

/-- A line without a comma parses to an undefined phone, so the filter drops
it. -/
theorem parseLine_no_comma (line : String) (h : ',' ∉ line.data) :
    (parseLine line).phone = none ∧ leadKept (parseLine line) = false := by
  have ht : jsSplit ',' line = [line] := by
    simp [jsSplit, splitChar_no_sep _ _ h, string_mk_data]
  constructor <;> simp [parseLine, leadKept, ht, truthy]

/-- The upload request body is the same in every branch of the leads-form
handler: the campaign id from the query string and the parsed leads. -/
theorem leadsFormSubmit_upload (p : Option String) (t : String)
    (ur lr : Except String Json) :
    (leadsFormSubmit p t ur lr).upload = ⟨p, parseLeads t⟩ := by
  cases ur with
  | error e => rfl
  | ok data =>
    simp only [leadsFormSubmit]
    split <;> rfl

/-- Claim C1: for every input text the parsed leads list has at most as many
entries as the text has newline-separated lines; an entry is present for a
line iff both of its first two comma-split tokens are non-empty after
trimming, and entries keep the order of their source lines (the list is the
order-preserving filter of the lines by that condition, each mapped through
the line parser); on the spec example of four lines the result is exactly the
Alice and Bob leads. -/
theorem claim_C1_lead_list_shape (t : String) :
    (parseLeads t).length ≤ (jsSplit '\n' t).length ∧
    parseLeads t = ((jsSplit '\n' t).filter bothTokensNonempty).map parseLine ∧
    parseLeads "Alice, 555-1111\nBob,555-2222\n,\nCarol," =
      [⟨some "Alice", some "555-1111"⟩, ⟨some "Bob", some "555-2222"⟩] :=
  ⟨parseLeads_length_le t, parseLeads_eq_filter t, by decide⟩

/-- Claim C2: a line containing no comma always parses to an undefined phone
and is filtered out; on a line with two or more commas only the first two
comma-delimited tokens become name and phone, and all text after the second
comma is silently lost. -/
theorem claim_C2_comma_policy (a b rest line : String)
    (ha : ',' ∉ a.data) (hb : ',' ∉ b.data) (hline : ',' ∉ line.data) :
    parseLine (a ++ "," ++ b ++ "," ++ rest) = ⟨some (jsTrim a), some (jsTrim b)⟩ ∧
    (parseLine line).phone = none ∧ leadKept (parseLine line) = false :=
  ⟨parseLine_two_commas a b rest ha hb, parseLine_no_comma line hline⟩

theorem claim_C2_comma_policy_witness :
    parseLine ("Alice" ++ "," ++ " 555-1111" ++ "," ++ "ignored,tail") =
      ⟨some (jsTrim "Alice"), some (jsTrim " 555-1111")⟩ ∧
    (parseLine "JustAName").phone = none ∧ leadKept (parseLine "JustAName") = false :=
  claim_C2_comma_policy "Alice" " 555-1111" "ignored,tail" "JustAName"
    (by decide) (by decide) (by decide)

/-- Claim C3, counterexample: a parsed JSON body with all four fields missing
is not handled as the claim states. At the concrete input (an empty JSON
object, dashboard nodes showing 1, 2, 3, 4) the handler logs nothing and the
DOM does not remain unchanged: the field accesses yield undefined without
throwing and the four assignments still run. -/
theorem claim_C3_missing_fields_counterexample :
    (fetchDashboardStats (.ok (Json.obj [])) ⟨"1", "2", "3", "4"⟩).2 = [] ∧
    (fetchDashboardStats (.ok (Json.obj [])) ⟨"1", "2", "3", "4"⟩).1 ≠
      ⟨"1", "2", "3", "4"⟩ := by
  decide

/-- Claim C3, amended: on a rejected or network-failed request or a non-JSON
response body the handler logs the error and all four dashboard DOM text
nodes remain unchanged, and no exception escapes the handler (the embedded
handler is a total function); a JSON body with missing fields, however, is
not treated as a failure: nothing is logged and the four assignments run
anyway. -/
theorem claim_C3_failure_handling_amended (e : String) (dom : Dom)
    (fields : List (String × Json)) :
    fetchDashboardStats (.error e) dom = (dom, ["Error fetching stats: " ++ e]) ∧
    (fetchDashboardStats (.ok (Json.obj fields)) dom).2 = [] :=
  ⟨rfl, rfl⟩

/-- Claim C4: a create-campaign response with status success and campaign_id
42 navigates to /add-leads?campaign=42; a response with status error yields
no navigation, and in general any parsed response whose status field is not
strictly the string success yields no navigation. -/
theorem claim_C4_create_redirect (data : Json)
    (h : strictEqStr (jsonField data "status") "success" = false) :
    (campaignFormSubmit (.ok (Json.obj
        [("status", .str "success"), ("campaign_id", .str "42")]))).1
      = some "/add-leads?campaign=42" ∧
    (campaignFormSubmit (.ok (Json.obj [("status", .str "error")]))).1 = none ∧
    (campaignFormSubmit (.ok data)).1 = none := by
  refine ⟨by decide, by decide, ?_⟩
  simp [campaignFormSubmit, h]

theorem claim_C4_create_redirect_witness :
    (campaignFormSubmit (.ok (Json.obj
        [("status", .str "success"), ("campaign_id", .str "42")]))).1
      = some "/add-leads?campaign=42" ∧
    (campaignFormSubmit (.ok (Json.obj [("status", .str "error")]))).1 = none ∧
    (campaignFormSubmit (.ok (Json.obj [("status", Json.str "error")]))).1 = none :=
  claim_C4_create_redirect (Json.obj [("status", Json.str "error")]) (by decide)

/-- Claim C5: on the successful stats response of the spec example the four
dashboard text nodes receive exactly the corresponding field values, numbers
in decimal and the rate string verbatim, with no other transformation and
nothing logged, whatever the previous DOM content was. -/
theorem claim_C5_stats_verbatim (dom : Dom) :
    fetchDashboardStats (.ok (Json.obj [("total_calls", .num 10), ("hot_leads", .num 2),
      ("booked_calls", .num 1), ("conversion_rate", .str "20%")])) dom
      = (⟨"10", "2", "1", "20%"⟩, []) := rfl

/-- Claim C6: after an upload response with status success the handler issues
the POST to the per-campaign launch endpoint; when the launch response status
is started it navigates to /dashboard; when the launch response has any other
status nothing is logged and no navigation happens; when the launch request
fails the failure is only logged and no navigation happens. -/
theorem claim_C6_launch_flow (p : Option String) (t e : String) (data ld : Json)
    (lr : Except String Json)
    (h : strictEqStr (jsonField data "status") "success" = true) :
    (leadsFormSubmit p t (.ok data) lr).launchRequested = some (launchUrl p) ∧
    (strictEqStr (jsonField ld "status") "started" = true →
      (leadsFormSubmit p t (.ok data) (.ok ld)).nav = some "/dashboard") ∧
    (strictEqStr (jsonField ld "status") "started" = false →
      (leadsFormSubmit p t (.ok data) (.ok ld)).nav = none ∧
      (leadsFormSubmit p t (.ok data) (.ok ld)).logs = []) ∧
    ((leadsFormSubmit p t (.ok data) (.error e)).nav = none ∧
     (leadsFormSubmit p t (.ok data) (.error e)).logs =
       ["Error launching campaign: " ++ e]) := by
  refine ⟨?_, ?_, ?_, ?_⟩
  · simp [leadsFormSubmit, launchCampaign, h]
  · intro hs; simp [leadsFormSubmit, launchCampaign, h, hs]
  · intro hs; exact ⟨by simp [leadsFormSubmit, launchCampaign, h, hs],
      by simp [leadsFormSubmit, launchCampaign, h, hs]⟩
  · exact ⟨by simp [leadsFormSubmit, launchCampaign, h],
      by simp [leadsFormSubmit, launchCampaign, h]⟩

theorem claim_C6_launch_flow_witness :
    (leadsFormSubmit (some "7") "Alice,1"
        (.ok (Json.obj [("status", Json.str "success")]))
        (.error "x")).launchRequested = some (launchUrl (some "7")) ∧
    (strictEqStr (jsonField (Json.obj [("status", Json.str "started")]) "status")
        "started" = true →
      (leadsFormSubmit (some "7") "Alice,1"
        (.ok (Json.obj [("status", Json.str "success")]))
        (.ok (Json.obj [("status", Json.str "started")]))).nav = some "/dashboard") ∧
    (strictEqStr (jsonField (Json.obj [("status", Json.str "started")]) "status")
        "started" = false →
      (leadsFormSubmit (some "7") "Alice,1"
        (.ok (Json.obj [("status", Json.str "success")]))
        (.ok (Json.obj [("status", Json.str "started")]))).nav = none ∧
      (leadsFormSubmit (some "7") "Alice,1"
        (.ok (Json.obj [("status", Json.str "success")]))
        (.ok (Json.obj [("status", Json.str "started")]))).logs = []) ∧
    ((leadsFormSubmit (some "7") "Alice,1"
        (.ok (Json.obj [("status", Json.str "success")]))
        (.error "boom")).nav = none ∧
     (leadsFormSubmit (some "7") "Alice,1"
        (.ok (Json.obj [("status", Json.str "success")]))
        (.error "boom")).logs = ["Error launching campaign: " ++ "boom"]) :=
  claim_C6_launch_flow (some "7") "Alice,1" "boom"
    (Json.obj [("status", Json.str "success")])
    (Json.obj [("status", Json.str "started")]) (.error "x") (by decide)

/-- Claim C8: the campaign-creation redirect decision depends only on the
status field (navigation happens exactly when status is strictly the string
success, whatever the rest of the response holds), and a success response
with campaign_id absent still navigates, to /add-leads?campaign=undefined
because the undefined field prints as the text undefined under string
concatenation. -/
theorem claim_C8_status_only_redirect (data : Json) :
    (campaignFormSubmit (.ok (Json.obj [("status", Json.str "success")]))).1
      = some "/add-leads?campaign=undefined" ∧
    ((campaignFormSubmit (.ok data)).1).isSome
      = strictEqStr (jsonField data "status") "success" := by
  refine ⟨by decide, ?_⟩
  cases h : strictEqStr (jsonField data "status") "success" <;>
    simp [campaignFormSubmit, h]

/-- Claim C9: the upload request always carries the campaign id and the
parsed leads, whatever the input text; the empty input text splits into
exactly one line, that line is dropped, the parsed list is empty, and the
upload request is still issued carrying the empty leads array. -/
theorem claim_C9_empty_upload (p : Option String) (t : String)
    (ur lr : Except String Json) :
    (leadsFormSubmit p t ur lr).upload = ⟨p, parseLeads t⟩ ∧
    parseLeads "" = [] ∧
    jsSplit '\n' "" = [""] ∧
    leadKept (parseLine "") = false ∧
    (leadsFormSubmit p "" ur lr).upload = ⟨p, []⟩ := by
  have h0 : parseLeads "" = [] := by decide
  refine ⟨leadsFormSubmit_upload p t ur lr, h0, by decide, by decide, ?_⟩
  rw [leadsFormSubmit_upload, h0]

/-- Claim C10: when the campaign query parameter is absent the campaign id is
null, it is sent verbatim as null in the upload request body, and on upload
success the launch POST goes to the literal URL /api/campaign/null/launch. -/
theorem claim_C10_null_campaign_id (t : String) (data : Json)
    (ur lr : Except String Json)
    (h : strictEqStr (jsonField data "status") "success" = true) :
    (leadsFormSubmit none t ur lr).upload.campaignId = none ∧
    launchUrl none = "/api/campaign/null/launch" ∧
    (leadsFormSubmit none t (.ok data) lr).launchRequested
      = some "/api/campaign/null/launch" := by
  refine ⟨?_, rfl, ?_⟩
  · rw [leadsFormSubmit_upload]
  · simp [leadsFormSubmit, launchCampaign, h, launchUrl]

theorem claim_C10_null_campaign_id_witness :
    (leadsFormSubmit none "" (.error "x") (.error "y")).upload.campaignId = none ∧
    launchUrl none = "/api/campaign/null/launch" ∧
    (leadsFormSubmit none ""
        (.ok (Json.obj [("status", Json.str "success")]))
        (.error "y")).launchRequested = some "/api/campaign/null/launch" :=
  claim_C10_null_campaign_id "" (Json.obj [("status", Json.str "success")])
    (.error "x") (.error "y") (by decide)
